import Mathlib

/-!
Shallow embedding of the Authenticus POS Stripe backend.

The repository holds two variants of the same Express server: src/server.js
(called v0 below) and the unnamed variant src/unnamed/part_000 (called v1).
Each HTTP handler is modelled as a pure function over a request record and
an oracle standing for the external Stripe API; the polling loop carries
explicit fuel, and time is modelled as millisecond timestamps accumulated
by the loop.  JavaScript truthiness of request fields is modelled
explicitly (0, the empty string, and an absent field are falsy).
-/

/-- A JavaScript value that can appear in the amount field of a JSON
request body, in the shapes the analysis needs: a number (possibly
negative or fractional, hence a rational) or a string. -/
inductive JsVal where
  | num (q : Rat)
  | str (s : String)
  deriving DecidableEq, Repr

/-- JavaScript truthiness of such a value: the number 0 and the empty
string are falsy, everything else is truthy. -/
def JsVal.truthy : JsVal → Bool
  | .num q => decide (q ≠ 0)
  | .str s => decide (s ≠ "")

/-- Truthiness of an optional field: an absent (undefined) field is
falsy. -/
def optTruthy : Option JsVal → Bool
  | none => false
  | some v => v.truthy

/-- Truthiness of an optional string field: absent or empty is falsy. -/
def strTruthy : Option String → Bool
  | none => false
  | some s => decide (s ≠ "")

/-- A payment intent object as returned by the external processor:
an identifier and a status string. -/
structure PaymentIntent where
  id : String
  status : String
  deriving DecidableEq, Repr

/-- Body of a POST create-payment-intent request.  The metadata object is
an association list in which later entries override earlier ones. -/
structure CreateReq where
  amount : Option JsVal
  currency : Option String
  email : Option String
  receipt_email : Option String
  metadata : List (String × String)
  deriving DecidableEq, Repr

/-- The argument object of a stripe.paymentIntents.create call. -/
structure CreateCall where
  amount : JsVal
  currency : String
  payment_method_types : List String
  capture_method : String
  description : String
  metadata : List (String × String)
  receipt_email : Option String
  deriving DecidableEq, Repr

/-- Response of the create-payment-intent handler: 400 with an error
message, 200 with the payment-intent id, or 500 with an error message. -/
inductive CreateResp where
  | badRequest (error : String)
  | ok (payment_intent : String)
  | serverError (error : String)
  deriving DecidableEq, Repr

/-- The contact-email normalization of variant v1:
customerEmail = email or receipt_email or null, with JavaScript
short-circuit semantics over truthiness. -/
def normEmail (email receipt_email : Option String) : Option String :=
  if strTruthy email then email
  else if strTruthy receipt_email then receipt_email
  else none

/-- Lookup in a JS-object association list where later entries override
earlier ones (object spread semantics). -/
def metaLookup (m : List (String × String)) (k : String) : Option String :=
  match m.reverse.find? (fun p => p.1 == k) with
  | none => none
  | some p => some p.2

/-- The create-payment-intent handler of src/server.js (variant v0).
It reads amount, currency, email and metadata from the body (the
receipt_email body field is not read), rejects a falsy amount with 400,
and otherwise issues one creation call whose receipt_email is the email
field when truthy and absent otherwise; the metadata is passed through
untouched.  Returns the HTTP response together with the list of creation
calls issued to the processor.  The call object it builds from a request
with truthy amount a is v0Call req a: -/
def v0Call (req : CreateReq) (a : JsVal) : CreateCall :=
  { amount := a
    currency := req.currency.getD "usd"
    payment_method_types := ["card_present"]
    capture_method := "automatic"
    description := "Authenticus POS Sale"
    metadata := req.metadata
    receipt_email := if strTruthy req.email then req.email else none }

/-- The create-payment-intent handler of src/server.js, built on the call
object v0Call. -/
def createHandler_v0 (create : CreateCall → Except String PaymentIntent)
    (req : CreateReq) : CreateResp × List CreateCall :=
  match req.amount with
  | none => (.badRequest "Missing amount", [])
  | some a =>
    if a.truthy = false then (.badRequest "Missing amount", [])
    else
      match create (v0Call req a) with
      | .ok pi => (.ok pi.id, [v0Call req a])
      | .error e => (.serverError e, [v0Call req a])

/-- The create-payment-intent handler of src/unnamed/part_000 (variant
v1).  It additionally reads receipt_email, normalizes the contact email
as email or receipt_email or null, merges a customer_email tag into the
metadata when the normalized email is truthy, and sets receipt_email of
the creation call to the normalized email.  The call object it builds
from a request with truthy amount a is v1Call req a: -/
def v1Call (req : CreateReq) (a : JsVal) : CreateCall :=
  { amount := a
    currency := req.currency.getD "usd"
    payment_method_types := ["card_present"]
    capture_method := "automatic"
    description := "Authenticus POS Sale"
    metadata := req.metadata ++
      (match normEmail req.email req.receipt_email with
       | some e => [("customer_email", e)]
       | none => [])
    receipt_email := normEmail req.email req.receipt_email }

/-- The create-payment-intent handler of src/unnamed/part_000, built on
the call object v1Call. -/
def createHandler_v1 (create : CreateCall → Except String PaymentIntent)
    (req : CreateReq) : CreateResp × List CreateCall :=
  match req.amount with
  | none => (.badRequest "Missing amount", [])
  | some a =>
    if a.truthy = false then (.badRequest "Missing amount", [])
    else
      match create (v1Call req a) with
      | .ok pi => (.ok pi.id, [v1Call req a])
      | .error e => (.serverError e, [v1Call req a])

/-- Oracle for the external calls made by the process-on-reader handler:
the instruct-reader call (processPaymentIntent on the configured reader),
the k-th status retrieval of the payment intent, and the collectInputs
call on the reader. -/
structure ProcOracle where
  instruct : String → Except String Unit
  retrieve : Nat → PaymentIntent
  collect : Except String String

/-- Response of the process-on-reader handler. -/
inductive ProcResp where
  | badRequest (error : String)
  | ok (payment_intent : PaymentIntent)
  | serverError (error : String)
  deriving DecidableEq, Repr

/-- Observable outcome of one terminating run of the process-on-reader
handler: the HTTP response, whether the reader was instructed, the
millisecond timestamps of the status fetches, the delay taken before the
post-response collect step, whether that step was attempted, and the
collect error that was logged and swallowed, if any. -/
structure ProcOutcome where
  response : ProcResp
  instructed : Bool
  fetchTimes : List Nat
  postWaitMs : Option Nat
  collectTried : Bool
  loggedCollectErr : Option String
  deriving DecidableEq, Repr

/-- The recursive poll closure of both variants, with explicit fuel.
k is the index of the next status fetch, t the current time in
milliseconds, acc the timestamps of the fetches already made.  Each
iteration fetches the current payment intent, returns it when its status
is succeeded, and otherwise waits 1500 ms and recurses.  A none result
means the fuel ran out with the loop still running. -/
def pollAux (retrieve : Nat → PaymentIntent) :
    Nat → Nat → Nat → List Nat → Option (PaymentIntent × List Nat)
  | 0, _, _, _ => none
  | fuel + 1, k, t, acc =>
    let pi := retrieve k
    if pi.status = "succeeded" then some (pi, acc ++ [t])
    else pollAux retrieve fuel (k + 1) (t + 1500) (acc ++ [t])

/-- The process-on-reader handler of both variants.  A falsy
payment_intent body field yields 400 before any external call; an error
of the instruct-reader call yields 500 with that error message before
any polling; otherwise the handler polls until succeeded (none if the
fuel runs out first, modelling that no response was sent), responds with
the final intent, and, when the final status is succeeded, waits 1000 ms
and attempts the best-effort collectInputs call, logging and swallowing
any error from it. -/
def processHandler (o : ProcOracle) (fuel : Nat)
    (payment_intent : Option String) : Option ProcOutcome :=
  if strTruthy payment_intent = false then
    some { response := .badRequest "Missing payment_intent"
           instructed := false
           fetchTimes := []
           postWaitMs := none
           collectTried := false
           loggedCollectErr := none }
  else
    match o.instruct (payment_intent.getD "") with
    | .error e =>
      some { response := .serverError e
             instructed := true
             fetchTimes := []
             postWaitMs := none
             collectTried := false
             loggedCollectErr := none }
    | .ok _ =>
      match pollAux o.retrieve fuel 0 0 [] with
      | none => none
      | some (pi, times) =>
        if pi.status = "succeeded" then
          match o.collect with
          | .ok _ =>
            some { response := .ok pi
                   instructed := true
                   fetchTimes := times
                   postWaitMs := some 1000
                   collectTried := true
                   loggedCollectErr := none }
          | .error ce =>
            some { response := .ok pi
                   instructed := true
                   fetchTimes := times
                   postWaitMs := some 1000
                   collectTried := true
                   loggedCollectErr := some ce }
        else
          some { response := .ok pi
                 instructed := true
                 fetchTimes := times
                 postWaitMs := none
                 collectTried := false
                 loggedCollectErr := none }

/-- Response of the cancel-payment handler (variant v1 only). -/
inductive CancelResp where
  | ok (message : String)
  | serverError (error : String)
  deriving DecidableEq, Repr

/-- The cancel-payment handler of variant v1: it issues the cancelAction
call on the configured reader, reports success with a fixed message when
the call does not error, and 500 with the error message otherwise. -/
def cancelHandler (cancelAction : Except String Unit) : CancelResp :=
  match cancelAction with
  | .ok _ => .ok "Payment cancelled on reader"
  | .error e => .serverError e

/-- A creation oracle that always succeeds with a fixed intent, used by
concrete instantiations. -/
def okCreate : CreateCall → Except String PaymentIntent :=
  fun _ => .ok ⟨"pi_42", "requires_payment_method"⟩

/-- A process oracle whose retrieved status is always processing. -/
def constProcessing : ProcOracle :=
  { instruct := fun _ => .ok ()
    retrieve := fun _ => ⟨"pi_123", "processing"⟩
    collect := .ok "done" }

/-- A process oracle that reports processing on the first two fetches and
succeeded from the third fetch on. -/
def succAtThree : ProcOracle :=
  { instruct := fun _ => .ok ()
    retrieve := fun k => if k < 2 then ⟨"pi_9", "processing"⟩ else ⟨"pi_9", "succeeded"⟩
    collect := .ok "done" }

/-- A concrete create request supplying only receipt_email as contact. -/
def reqReceiptOnly : CreateReq :=
  { amount := some (.num 100)
    currency := none
    email := none
    receipt_email := some "a@b.c"
    metadata := [] }

/-- A concrete create request supplying an empty email together with a
non-empty receipt_email. -/
def reqEmptyEmail : CreateReq :=
  { amount := some (.num 100)
    currency := none
    email := some ""
    receipt_email := some "b@c.d"
    metadata := [] }

/-- A concrete create request whose amount is the falsy number 0. -/
def reqZero : CreateReq :=
  { amount := some (.num 0)
    currency := none
    email := none
    receipt_email := none
    metadata := [] }

/-- A concrete create request whose amount is the truthy number -250. -/
def reqNeg : CreateReq :=
  { amount := some (.num (-250))
    currency := none
    email := none
    receipt_email := none
    metadata := [] }

/-- Concrete outcome of a one-fetch succeeded run whose collect call
fails with the message boom. -/
def outBoom : ProcOutcome :=
  { response := .ok ⟨"pi_7", "succeeded"⟩
    instructed := true
    fetchTimes := [0]
    postWaitMs := some 1000
    collectTried := true
    loggedCollectErr := some "boom" }

/-- If no retrieved status is ever succeeded, the poll loop exhausts any
amount of fuel without returning. -/
theorem pollAux_eq_none (retrieve : Nat → PaymentIntent)
    (h : ∀ j, (retrieve j).status ≠ "succeeded") :
    ∀ fuel k t acc, pollAux retrieve fuel k t acc = none := by
  intro fuel
  induction fuel with
  | zero => intro k t acc; rfl
  | succ n ih =>
    intro k t acc
    simp only [pollAux]
    rw [if_neg (h k)]
    exact ih (k + 1) (t + 1500) (acc ++ [t])

/-- Prepending the start time to a 1500 ms arithmetic progression started
1500 ms later gives the progression with one more element. -/
theorem range_map_shift (t n : Nat) :
    t :: (List.range n).map (fun j => t + 1500 + 1500 * j) =
      (List.range (n + 1)).map (fun j => t + 1500 * j) := by
  rw [List.range_succ_eq_map, List.map_cons, List.map_map]
  have h1 : t + 1500 * 0 = t := by ring
  have h2 : ((fun j => t + 1500 * j) ∘ Nat.succ) = fun j => t + 1500 + 1500 * j := by
    funext j
    simp only [Function.comp_apply, Nat.succ_eq_add_one]
    ring
  rw [h1, h2]

/-- If the first m fetches starting at index k are not succeeded and the
fetch at index k + m is, then with fuel at least m + 1 the poll loop
returns that intent together with the m + 1 fetch timestamps spaced
1500 ms apart starting at t. -/
theorem pollAux_spec (retrieve : Nat → PaymentIntent) :
    ∀ m k t acc fuel,
      (∀ j, j < m → (retrieve (k + j)).status ≠ "succeeded") →
      (retrieve (k + m)).status = "succeeded" →
      m + 1 ≤ fuel →
      pollAux retrieve fuel k t acc =
        some (retrieve (k + m),
          acc ++ (List.range (m + 1)).map (fun j => t + 1500 * j)) := by
  intro m
  induction m with
  | zero =>
    intro k t acc fuel hlt hsucc hfuel
    match fuel, hfuel with
    | f + 1, _ =>
      have hk : (retrieve k).status = "succeeded" := by simpa using hsucc
      simp only [pollAux]
      rw [if_pos hk]
      simp [List.range_succ]
  | succ n ih =>
    intro k t acc fuel hlt hsucc hfuel
    match fuel, hfuel with
    | f + 1, hf =>
      have hk : (retrieve k).status ≠ "succeeded" := by
        have := hlt 0 (Nat.succ_pos n)
        simpa using this
      simp only [pollAux]
      rw [if_neg hk]
      have hlt2 : ∀ j, j < n → (retrieve (k + 1 + j)).status ≠ "succeeded" := by
        intro j hj
        have := hlt (j + 1) (by omega)
        have he : k + (j + 1) = k + 1 + j := by omega
        rwa [he] at this
      have hsucc2 : (retrieve (k + 1 + n)).status = "succeeded" := by
        have he : k + (n + 1) = k + 1 + n := by omega
        rwa [he] at hsucc
      have hf2 : n + 1 ≤ f := by omega
      rw [ih (k + 1) (t + 1500) (acc ++ [t]) f hlt2 hsucc2 hf2]
      have he : k + 1 + n = k + (n + 1) := by omega
      rw [he]
      congr 1
      rw [List.append_assoc]
      congr 1
      rw [List.singleton_append, range_map_shift t (n + 1)]

/-- Element access in the arithmetic-progression fetch list. -/
theorem getD_range_map (f : Nat → Nat) (N j : Nat) (h : j < N) :
    ((List.range N).map f).getD j 0 = f j := by
  rw [List.getD_eq_getElem?_getD, List.getElem?_map, List.getElem?_range h]
  rfl

/-- C1: once the reader has been instructed, the polling loop of the
process-on-reader handler tests only for the succeeded status; for any
status sequence that never contains succeeded it waits and retries with
no attempt bound, so for every fuel bound the handler has still sent no
response (the run yields none). -/
theorem claim1_unbounded_polling (o : ProcOracle) (p : String)
    (hp : p ≠ "")
    (hins : o.instruct p = .ok ())
    (hnever : ∀ j, (o.retrieve j).status ≠ "succeeded") :
    ∀ fuel, processHandler o fuel (some p) = none := by
  intro fuel
  unfold processHandler
  have ht : strTruthy (some p) = true := by
    simp [strTruthy, hp]
  rw [ht]
  simp only [Bool.true_eq_false, if_false, Option.getD_some, hins]
  rw [pollAux_eq_none o.retrieve hnever fuel 0 0 []]

/-- C1 witness: with an oracle that always reports processing, no amount
of fuel produces a response. -/
theorem claim1_unbounded_polling_witness :
    processHandler constProcessing 7 (some "pi_123") = none :=
  claim1_unbounded_polling constProcessing "pi_123" (by decide) rfl
    (fun j => by simp [constProcessing]) 7

/-- C2: if the processor reports processing on polls 1..N-1 and succeeded
on the Nth poll, the process-on-reader handler performs exactly N status
fetches, consecutive fetch timestamps at least 1500 ms apart, before its
response is produced. -/
theorem claim2_exact_fetches (o : ProcOracle) (p : String) (N fuel : Nat)
    (hp : p ≠ "") (hins : o.instruct p = .ok ())
    (hN : 1 ≤ N) (hfuel : N ≤ fuel)
    (hproc : ∀ j, j < N - 1 → (o.retrieve j).status = "processing")
    (hsucc : (o.retrieve (N - 1)).status = "succeeded") :
    ∃ out, processHandler o fuel (some p) = some out ∧
      out.fetchTimes.length = N ∧
      ∀ j, j + 1 < N →
        out.fetchTimes.getD j 0 + 1500 ≤ out.fetchTimes.getD (j + 1) 0 := by
  have hm : N - 1 + 1 = N := by omega
  have hpoll := pollAux_spec o.retrieve (N - 1) 0 0 [] fuel
    (fun j hj => by
      have hpr := hproc j hj
      have hz : (0 : Nat) + j = j := by omega
      rw [hz, hpr]
      decide)
    (by
      have hz : (0 : Nat) + (N - 1) = N - 1 := by omega
      rwa [hz])
    (by omega)
  have ht : strTruthy (some p) = true := by simp [strTruthy, hp]
  have hs : (o.retrieve (0 + (N - 1))).status = "succeeded" := by
    have hz : (0 : Nat) + (N - 1) = N - 1 := by omega
    rwa [hz]
  have hlen : (([] : List Nat) ++ (List.range (N - 1 + 1)).map (fun i => 0 + 1500 * i)).length = N := by
    simp [hm]
  have hsp : ∀ j, j + 1 < N →
      (([] : List Nat) ++ (List.range (N - 1 + 1)).map (fun i => 0 + 1500 * i)).getD j 0 + 1500 ≤
      (([] : List Nat) ++ (List.range (N - 1 + 1)).map (fun i => 0 + 1500 * i)).getD (j + 1) 0 := by
    intro j hj
    rw [List.nil_append, getD_range_map _ _ j (by omega), getD_range_map _ _ (j + 1) (by omega)]
    omega
  unfold processHandler
  rw [ht]
  simp only [Bool.true_eq_false, if_false, Option.getD_some, hins, hpoll]
  rw [if_pos hs]
  cases hc : o.collect with
  | ok v => exact ⟨_, rfl, hlen, hsp⟩
  | error ce => exact ⟨_, rfl, hlen, hsp⟩

/-- C2 witness: with succeeded first reported on the third fetch, the run
makes exactly three fetches spaced at least 1500 ms apart. -/
theorem claim2_exact_fetches_witness :
    ∃ out, processHandler succAtThree 3 (some "pi_9") = some out ∧
      out.fetchTimes.length = 3 ∧
      ∀ j, j + 1 < 3 →
        out.fetchTimes.getD j 0 + 1500 ≤ out.fetchTimes.getD (j + 1) 0 :=
  claim2_exact_fetches succAtThree "pi_9" 3 3 (by decide) rfl (by omega) (by omega)
    (fun j hj => by interval_cases j <;> rfl)
    rfl

/-- Appending a key-value pair to a JS-object association list makes that
pair the result of looking its key up. -/
theorem metaLookup_append_last (m : List (String × String)) (k v : String) :
    metaLookup (m ++ [(k, v)]) k = some v := by
  unfold metaLookup
  rw [List.reverse_append]
  simp [List.find?]

/-- Variant v0 rejects a request whose amount is present but falsy. -/
theorem createHandler_v0_falsy (create : CreateCall → Except String PaymentIntent)
    (req : CreateReq) (a : JsVal) (hamt : req.amount = some a)
    (hta : a.truthy = false) :
    createHandler_v0 create req = (.badRequest "Missing amount", []) := by
  unfold createHandler_v0
  rw [hamt]
  simp [hta]

/-- Variant v1 rejects a request whose amount is present but falsy. -/
theorem createHandler_v1_falsy (create : CreateCall → Except String PaymentIntent)
    (req : CreateReq) (a : JsVal) (hamt : req.amount = some a)
    (hta : a.truthy = false) :
    createHandler_v1 create req = (.badRequest "Missing amount", []) := by
  unfold createHandler_v1
  rw [hamt]
  simp [hta]

/-- With a truthy amount, variant v0 issues exactly the call v0Call req a
and maps the oracle result onto the response. -/
theorem createHandler_v0_run (create : CreateCall → Except String PaymentIntent)
    (req : CreateReq) (a : JsVal) (hamt : req.amount = some a)
    (hta : a.truthy = true) :
    createHandler_v0 create req =
      match create (v0Call req a) with
      | .ok pi => (.ok pi.id, [v0Call req a])
      | .error e => (.serverError e, [v0Call req a]) := by
  unfold createHandler_v0
  rw [hamt]
  simp only [hta, Bool.true_eq_false, if_false]

/-- With a truthy amount, variant v1 issues exactly the call v1Call req a
and maps the oracle result onto the response. -/
theorem createHandler_v1_run (create : CreateCall → Except String PaymentIntent)
    (req : CreateReq) (a : JsVal) (hamt : req.amount = some a)
    (hta : a.truthy = true) :
    createHandler_v1 create req =
      match create (v1Call req a) with
      | .ok pi => (.ok pi.id, [v1Call req a])
      | .error e => (.serverError e, [v1Call req a]) := by
  unfold createHandler_v1
  rw [hamt]
  simp only [hta, Bool.true_eq_false, if_false]

/-- With a truthy amount, the list of creation calls made by v0 is exactly
the singleton v0Call req a. -/
theorem createHandler_v0_calls (create : CreateCall → Except String PaymentIntent)
    (req : CreateReq) (a : JsVal) (hamt : req.amount = some a)
    (hta : a.truthy = true) :
    (createHandler_v0 create req).2 = [v0Call req a] := by
  rw [createHandler_v0_run create req a hamt hta]
  cases create (v0Call req a) with
  | ok pi => rfl
  | error e => rfl

/-- With a truthy amount, the list of creation calls made by v1 is exactly
the singleton v1Call req a. -/
theorem createHandler_v1_calls (create : CreateCall → Except String PaymentIntent)
    (req : CreateReq) (a : JsVal) (hamt : req.amount = some a)
    (hta : a.truthy = true) :
    (createHandler_v1 create req).2 = [v1Call req a] := by
  rw [createHandler_v1_run create req a hamt hta]
  cases create (v1Call req a) with
  | ok pi => rfl
  | error e => rfl

/-- When the normalized contact email is e, the call v1 builds carries the
customer_email tag e in its metadata and instructs a receipt to e. -/
theorem v1Call_tagged (req : CreateReq) (a : JsVal) (e : String)
    (hne : normEmail req.email req.receipt_email = some e) :
    metaLookup (v1Call req a).metadata "customer_email" = some e ∧
    (v1Call req a).receipt_email = some e := by
  constructor
  · have hmeta : (v1Call req a).metadata = req.metadata ++ [("customer_email", e)] := by
      unfold v1Call
      rw [hne]
    rw [hmeta]
    exact metaLookup_append_last req.metadata "customer_email" e
  · unfold v1Call
    rw [hne]

/-- Shared content of the tagging claims: with a truthy amount and
normalized contact email e, variant v1 issues exactly one creation call,
tagged with customer_email e and instructing a receipt to e. -/
theorem v1_tags_normalized (create : CreateCall → Except String PaymentIntent)
    (req : CreateReq) (a : JsVal) (e : String)
    (hamt : req.amount = some a) (hta : a.truthy = true)
    (hne : normEmail req.email req.receipt_email = some e) :
    ∃ c, (createHandler_v1 create req).2 = [c] ∧
      metaLookup c.metadata "customer_email" = some e ∧
      c.receipt_email = some e :=
  ⟨v1Call req a, createHandler_v1_calls create req a hamt hta,
    (v1Call_tagged req a e hne).1, (v1Call_tagged req a e hne).2⟩

/-- C3 counterexample: in the server.js variant, the request that supplies
only receipt_email as contact (whose normalized contact email is a@b.c)
produces exactly one creation call, whose receipt_email field is absent
and whose metadata carries no customer_email tag, refuting the claim as
stated over every create-payment-intent request of the repository. -/
theorem claim3_receipt_counterexample :
    normEmail reqReceiptOnly.email reqReceiptOnly.receipt_email = some "a@b.c" ∧
    (createHandler_v0 okCreate reqReceiptOnly).2.map
        (fun c => (c.receipt_email, metaLookup c.metadata "customer_email")) =
      [(none, none)] := by
  constructor
  · rfl
  · rfl

/-- C3 amended: in the unnamed variant v1, every create request whose
normalized contact email is e issues exactly one creation call, whose
metadata is tagged with customer_email equal to e and whose receipt_email
field equals e; the server.js variant v0 ignores the receipt_email body
field and never tags metadata, honouring only a truthy email field in the
receipt instruction. -/
theorem claim3_email_tagging_v1 (create : CreateCall → Except String PaymentIntent)
    (req : CreateReq) (a : JsVal) (e : String)
    (hamt : req.amount = some a) (hta : a.truthy = true)
    (hne : normEmail req.email req.receipt_email = some e) :
    ∃ c, (createHandler_v1 create req).2 = [c] ∧
      metaLookup c.metadata "customer_email" = some e ∧
      c.receipt_email = some e :=
  v1_tags_normalized create req a e hamt hta hne

/-- C3 witness: a request supplying only receipt_email, under v1, yields a
call tagged and instructed with that address. -/
theorem claim3_email_tagging_v1_witness :
    ∃ c, (createHandler_v1 okCreate reqReceiptOnly).2 = [c] ∧
      metaLookup c.metadata "customer_email" = some "a@b.c" ∧
      c.receipt_email = some "a@b.c" :=
  claim3_email_tagging_v1 okCreate reqReceiptOnly (.num 100) "a@b.c" rfl (by decide) rfl

/-- C4 counterexample: supplying both fields with email the empty string
(a supplied but falsy value) makes the unnamed variant use receipt_email,
not the value of email, as the effective contact address for the receipt
and the metadata tag, refuting the claim as stated. -/
theorem claim4_empty_email_counterexample :
    reqEmptyEmail.email = some "" ∧
    reqEmptyEmail.receipt_email = some "b@c.d" ∧
    (createHandler_v1 okCreate reqEmptyEmail).2.map
        (fun c => (c.receipt_email, metaLookup c.metadata "customer_email")) =
      [(some "b@c.d", some "b@c.d")] := by
  refine ⟨rfl, rfl, ?_⟩
  rfl

/-- C4 amended: when both email and receipt_email are supplied and email
is truthy (non-empty), email takes precedence as the effective contact
address: variant v1 uses it both for the receipt instruction and the
metadata tag, and variant v0 uses it for the receipt instruction (v0
performs no tagging). -/
theorem claim4_email_precedence (create0 create1 : CreateCall → Except String PaymentIntent)
    (req : CreateReq) (a : JsVal) (e r : String)
    (hamt : req.amount = some a) (hta : a.truthy = true)
    (hem : req.email = some e) (he : e ≠ "")
    (hre : req.receipt_email = some r) :
    (∃ c, (createHandler_v1 create1 req).2 = [c] ∧
      c.receipt_email = some e ∧
      metaLookup c.metadata "customer_email" = some e) ∧
    (∃ c, (createHandler_v0 create0 req).2 = [c] ∧ c.receipt_email = some e) := by
  have htr : strTruthy req.email = true := by
    rw [hem]
    simp [strTruthy, he]
  have hne : normEmail req.email req.receipt_email = some e := by
    unfold normEmail
    rw [htr, if_pos rfl, hem]
  constructor
  · exact (v1_tags_normalized create1 req a e hamt hta hne).imp
      (fun c hc => ⟨hc.1, hc.2.2, hc.2.1⟩)
  · have hrec : (v0Call req a).receipt_email = some e := by
      unfold v0Call
      rw [htr, if_pos rfl, hem]
    exact ⟨v0Call req a, createHandler_v0_calls create0 req a hamt hta, hrec⟩

/-- C4 witness: with email x@y.z and receipt_email b@c.d both supplied,
both variants use x@y.z. -/
theorem claim4_email_precedence_witness :
    (∃ c, (createHandler_v1 okCreate
        { amount := some (.num 100), currency := none, email := some "x@y.z",
          receipt_email := some "b@c.d", metadata := [] }).2 = [c] ∧
      c.receipt_email = some "x@y.z" ∧
      metaLookup c.metadata "customer_email" = some "x@y.z") ∧
    (∃ c, (createHandler_v0 okCreate
        { amount := some (.num 100), currency := none, email := some "x@y.z",
          receipt_email := some "b@c.d", metadata := [] }).2 = [c] ∧
      c.receipt_email = some "x@y.z") :=
  claim4_email_precedence okCreate okCreate _ (.num 100) "x@y.z" "b@c.d"
    rfl (by decide) rfl (by decide) rfl

/-- C5: a create request with no amount gets 400 Missing amount from both
variants with no creation call issued, and a process request with no
payment_intent gets 400 Missing payment_intent with no reader
instruction, no status fetch and no collect attempt. -/
theorem claim5_missing_required_fields
    (create0 create1 : CreateCall → Except String PaymentIntent)
    (o : ProcOracle) (fuel : Nat) (req : CreateReq)
    (hamt : req.amount = none) :
    createHandler_v0 create0 req = (.badRequest "Missing amount", []) ∧
    createHandler_v1 create1 req = (.badRequest "Missing amount", []) ∧
    processHandler o fuel none =
      some { response := .badRequest "Missing payment_intent"
             instructed := false
             fetchTimes := []
             postWaitMs := none
             collectTried := false
             loggedCollectErr := none } := by
  refine ⟨?_, ?_, rfl⟩
  · unfold createHandler_v0
    rw [hamt]
  · unfold createHandler_v1
    rw [hamt]

/-- C5 witness at a concrete amount-less request and the empty process
body. -/
theorem claim5_missing_required_fields_witness :
    createHandler_v0 okCreate
        { amount := none, currency := none, email := none,
          receipt_email := none, metadata := [] } =
      (.badRequest "Missing amount", []) ∧
    createHandler_v1 okCreate
        { amount := none, currency := none, email := none,
          receipt_email := none, metadata := [] } =
      (.badRequest "Missing amount", []) ∧
    processHandler constProcessing 5 none =
      some { response := .badRequest "Missing payment_intent"
             instructed := false
             fetchTimes := []
             postWaitMs := none
             collectTried := false
             loggedCollectErr := none } :=
  claim5_missing_required_fields okCreate okCreate constProcessing 5 _ rfl

/-- C6: when the instruct-reader call errors, the process-on-reader
operation aborts with no status fetch and no collect attempt, and the
caller receives the 500 response carrying the processor error message
verbatim. -/
theorem claim6_instruct_error_aborts (o : ProcOracle) (p e : String) (fuel : Nat)
    (hp : p ≠ "") (hins : o.instruct p = .error e) :
    processHandler o fuel (some p) =
      some { response := .serverError e
             instructed := true
             fetchTimes := []
             postWaitMs := none
             collectTried := false
             loggedCollectErr := none } := by
  unfold processHandler
  have ht : strTruthy (some p) = true := by simp [strTruthy, hp]
  rw [ht]
  simp only [Bool.true_eq_false, if_false, Option.getD_some, hins]

/-- C6 witness: a concrete oracle whose instruct call fails with the
message reader offline. -/
theorem claim6_instruct_error_aborts_witness :
    processHandler
        { instruct := fun _ => .error "reader offline"
          retrieve := fun _ => ⟨"pi_123", "processing"⟩
          collect := .ok "done" } 5 (some "pi_123") =
      some { response := .serverError "reader offline"
             instructed := true
             fetchTimes := []
             postWaitMs := none
             collectTried := false
             loggedCollectErr := none } :=
  claim6_instruct_error_aborts _ "pi_123" "reader offline" 5 (by decide) rfl

/-- C7: in any terminating run of the process-on-reader handler, the
response is independent of the collect oracle (so a collect error never
alters the already-sent response), the collect step is attempted exactly
when the final response is a success whose status is succeeded, the
attempt follows a 1000 ms wait, and a collect error is logged and
swallowed. -/
theorem claim7_collect_best_effort (ins : String → Except String Unit)
    (ret : Nat → PaymentIntent) (c1 c2 : Except String String)
    (fuel : Nat) (pid : Option String) (out : ProcOutcome)
    (h : processHandler ⟨ins, ret, c1⟩ fuel pid = some out) :
    (processHandler ⟨ins, ret, c2⟩ fuel pid).map ProcOutcome.response =
      some out.response ∧
    (out.collectTried = true ↔
      ∃ pi, out.response = .ok pi ∧ pi.status = "succeeded") ∧
    (out.collectTried = true → out.postWaitMs = some 1000) ∧
    (∀ ce, c1 = .error ce → out.collectTried = true →
      out.loggedCollectErr = some ce) := by
  unfold processHandler at h ⊢
  by_cases hpt : strTruthy pid = false
  · rw [if_pos hpt] at h ⊢
    injection h with h
    subst h
    refine ⟨rfl, by simp, by simp, ?_⟩
    intro ce hce hct
    simp at hct
  · rw [if_neg hpt] at h ⊢
    cases hins : ins (pid.getD "") with
    | error e =>
      simp only [hins] at h ⊢
      injection h with h
      subst h
      refine ⟨rfl, by simp, by simp, ?_⟩
      intro ce hce hct
      simp at hct
    | ok u =>
      simp only [hins] at h ⊢
      cases hpoll : pollAux ret fuel 0 0 [] with
      | none =>
        simp only [hpoll] at h
        simp at h
      | some pr =>
        obtain ⟨pi, times⟩ := pr
        simp only [hpoll] at h ⊢
        by_cases hst : pi.status = "succeeded"
        · rw [if_pos hst] at h ⊢
          cases hc2 : c2 with
          | ok v2 =>
            cases hc1 : c1 with
            | ok v1 =>
              rw [hc1] at h
              simp only [] at h
              injection h with h
              subst h
              refine ⟨rfl, by simp [hst], fun _ => rfl, ?_⟩
              intro ce hce hct
              exact Except.noConfusion hce
            | error e1 =>
              rw [hc1] at h
              simp only [] at h
              injection h with h
              subst h
              refine ⟨rfl, by simp [hst], fun _ => rfl, ?_⟩
              intro ce hce hct
              injection hce with hce
              subst hce
              rfl
          | error e2 =>
            cases hc1 : c1 with
            | ok v1 =>
              rw [hc1] at h
              simp only [] at h
              injection h with h
              subst h
              refine ⟨rfl, by simp [hst], fun _ => rfl, ?_⟩
              intro ce hce hct
              exact Except.noConfusion hce
            | error e1 =>
              rw [hc1] at h
              simp only [] at h
              injection h with h
              subst h
              refine ⟨rfl, by simp [hst], fun _ => rfl, ?_⟩
              intro ce hce hct
              injection hce with hce
              subst hce
              rfl
        · rw [if_neg hst] at h ⊢
          injection h with h
          subst h
          refine ⟨rfl, ?_, ?_, ?_⟩
          · constructor
            · intro hct
              have hct2 : false = true := hct
              exact Bool.noConfusion hct2
            · rintro ⟨pi2, hpi2, hs2⟩
              have hpi3 : ProcResp.ok pi = ProcResp.ok pi2 := hpi2
              injection hpi3 with hpi3
              subst hpi3
              exact absurd hs2 hst
          · intro hct
            have hct2 : false = true := hct
            exact Bool.noConfusion hct2
          · intro ce hce hct
            have hct2 : false = true := hct
            exact Bool.noConfusion hct2


/-- C7 witness: a run whose collect call errors still produces the same
success response as a run whose collect call works, logs the error, and
waited 1000 ms before the attempt. -/
theorem claim7_collect_best_effort_witness :
    ((processHandler ⟨fun _ => .ok (), fun _ => ⟨"pi_7", "succeeded"⟩, .ok "x"⟩ 1
        (some "pi_7")).map ProcOutcome.response = some outBoom.response) ∧
    (outBoom.collectTried = true ↔
      ∃ pi, outBoom.response = .ok pi ∧ pi.status = "succeeded") ∧
    (outBoom.collectTried = true → outBoom.postWaitMs = some 1000) ∧
    (∀ ce, (Except.error "boom" : Except String String) = .error ce →
      outBoom.collectTried = true → outBoom.loggedCollectErr = some ce) :=
  claim7_collect_best_effort (fun _ => .ok ()) (fun _ => ⟨"pi_7", "succeeded"⟩)
    (.error "boom") (.ok "x") 1 (some "pi_7") outBoom (by decide)

/-- C8: whenever either create-payment-intent variant responds with
success, the identifier in the response body is exactly the id of the
intent produced by the single processor creation call, with no
transformation. -/
theorem claim8_id_passthrough (create : CreateCall → Except String PaymentIntent)
    (req : CreateReq) (s : String) :
    ((createHandler_v0 create req).1 = .ok s →
      ∃ c pi, (createHandler_v0 create req).2 = [c] ∧ create c = .ok pi ∧ pi.id = s) ∧
    ((createHandler_v1 create req).1 = .ok s →
      ∃ c pi, (createHandler_v1 create req).2 = [c] ∧ create c = .ok pi ∧ pi.id = s) := by
  constructor
  · intro h
    cases hamt : req.amount with
    | none =>
      unfold createHandler_v0 at h
      rw [hamt] at h
      simp at h
    | some a =>
      cases hta : a.truthy with
      | false =>
        rw [createHandler_v0_falsy create req a hamt hta] at h
        simp at h
      | true =>
        rw [createHandler_v0_run create req a hamt hta] at h ⊢
        cases hc : create (v0Call req a) with
        | ok pi =>
          rw [hc] at h
          have h2 : CreateResp.ok pi.id = CreateResp.ok s := h
          injection h2 with h2
          exact ⟨v0Call req a, pi, rfl, hc, h2⟩
        | error e =>
          rw [hc] at h
          simp at h
  · intro h
    cases hamt : req.amount with
    | none =>
      unfold createHandler_v1 at h
      rw [hamt] at h
      simp at h
    | some a =>
      cases hta : a.truthy with
      | false =>
        rw [createHandler_v1_falsy create req a hamt hta] at h
        simp at h
      | true =>
        rw [createHandler_v1_run create req a hamt hta] at h ⊢
        cases hc : create (v1Call req a) with
        | ok pi =>
          rw [hc] at h
          have h2 : CreateResp.ok pi.id = CreateResp.ok s := h
          injection h2 with h2
          exact ⟨v1Call req a, pi, rfl, hc, h2⟩
        | error e =>
          rw [hc] at h
          simp at h

/-- C8 witness: with a creation oracle producing id pi_42, both variants
answer pi_42 and the call they made is the one the oracle saw. -/
theorem claim8_id_passthrough_witness :
    (∃ c pi, (createHandler_v0 okCreate reqReceiptOnly).2 = [c] ∧
      okCreate c = .ok pi ∧ pi.id = "pi_42") ∧
    (∃ c pi, (createHandler_v1 okCreate reqReceiptOnly).2 = [c] ∧
      okCreate c = .ok pi ∧ pi.id = "pi_42") :=
  ⟨(claim8_id_passthrough okCreate reqReceiptOnly "pi_42").1 (by decide),
   (claim8_id_passthrough okCreate reqReceiptOnly "pi_42").2 (by decide)⟩

/-- C9: the cancel-payment handler reports success with the fixed message
whenever the cancelAction call does not error, independently of any
transaction state (the handler consults none), and reports 500 with the
error when the call errors. -/
theorem claim9_cancel_always_success (act : Except String Unit) :
    (act = .ok () → cancelHandler act = .ok "Payment cancelled on reader") ∧
    (∀ e, act = .error e → cancelHandler act = .serverError e) := by
  constructor
  · intro h
    rw [h]
    rfl
  · intro e h
    rw [h]
    rfl

/-- C9 witness at a successful and at a failing cancelAction call. -/
theorem claim9_cancel_always_success_witness :
    cancelHandler (.ok ()) = .ok "Payment cancelled on reader" ∧
    cancelHandler (.error "no reader") = .serverError "no reader" :=
  ⟨(claim9_cancel_always_success (.ok ())).1 rfl,
   (claim9_cancel_always_success (.error "no reader")).2 "no reader" rfl⟩

/-- C10: the amount check of both create handlers is JavaScript
truthiness: an amount equal to the number 0 or the empty string is
rejected with 400 Missing amount, while any truthy amount value
(negative, fractional or a non-numeric string alike) passes the check and
is forwarded unchanged in the single creation call sent to the
processor. -/
theorem claim10_amount_truthiness
    (create0 create1 : CreateCall → Except String PaymentIntent)
    (req : CreateReq) :
    ((req.amount = some (.num 0) ∨ req.amount = some (.str "")) →
      createHandler_v0 create0 req = (.badRequest "Missing amount", []) ∧
      createHandler_v1 create1 req = (.badRequest "Missing amount", [])) ∧
    (∀ a, req.amount = some a → a.truthy = true →
      (∃ c, (createHandler_v0 create0 req).2 = [c] ∧ c.amount = a) ∧
      (∃ c, (createHandler_v1 create1 req).2 = [c] ∧ c.amount = a)) := by
  constructor
  · intro hor
    have hfalsy : ∃ a, req.amount = some a ∧ a.truthy = false := by
      rcases hor with h | h
      · exact ⟨.num 0, h, by decide⟩
      · exact ⟨.str "", h, by decide⟩
    obtain ⟨a, hamt, hta⟩ := hfalsy
    exact ⟨createHandler_v0_falsy create0 req a hamt hta,
           createHandler_v1_falsy create1 req a hamt hta⟩
  · intro a hamt hta
    exact ⟨⟨v0Call req a, createHandler_v0_calls create0 req a hamt hta, rfl⟩,
           ⟨v1Call req a, createHandler_v1_calls create1 req a hamt hta, rfl⟩⟩

/-- C10 witness: amount 0 is rejected as Missing amount and the negative
amount -250 is forwarded untouched by both variants. -/
theorem claim10_amount_truthiness_witness :
    (createHandler_v0 okCreate reqZero = (.badRequest "Missing amount", []) ∧
     createHandler_v1 okCreate reqZero = (.badRequest "Missing amount", [])) ∧
    ((∃ c, (createHandler_v0 okCreate reqNeg).2 = [c] ∧ c.amount = .num (-250)) ∧
     (∃ c, (createHandler_v1 okCreate reqNeg).2 = [c] ∧ c.amount = .num (-250))) :=
  ⟨(claim10_amount_truthiness okCreate okCreate reqZero).1 (Or.inl rfl),
   (claim10_amount_truthiness okCreate okCreate reqNeg).2 (.num (-250)) rfl (by decide)⟩
